import Mathlib

/-!
Shallow embedding of the two Terraform resources of
terraform-provider-sonatypeiq:

* `internal/provider/application_role_membership_resource.go`
* `internal/provider/source_control_resource.go`

Framework value types (`types.String`, `types.Bool`) are modelled as
nullable values; the generated API client calls are modelled as explicit
outcomes (a success value plus HTTP response, or a failure carrying an
optional HTTP response — the response is absent when the transport itself
failed — and the Go error's message).  Each resource operation is a pure
function from the state/plan record and the API outcome to what the Go
method does to the Terraform response: set state, add an error diagnostic,
remove the resource, or fault (a nil-pointer dereference in Go).
-/

/-- Model of the framework's `types.String`: a nullable string. -/
inductive TFString where
  | null : TFString
  | value : String → TFString
deriving DecidableEq, Repr

/-- `types.String.IsNull()`. -/
def TFString.isNull : TFString → Bool
  | .null => true
  | .value _ => false

/-- `types.String.ValueString()`: the zero value `""` when null. -/
def TFString.valueString : TFString → String
  | .null => ""
  | .value s => s

/-- `types.String.ValueStringPointer()`: `nil` (none) when null. -/
def TFString.valueStringPointer : TFString → Option String
  | .null => none
  | .value s => some s

/-- Model of the framework's `types.Bool`: a nullable boolean. -/
inductive TFBool where
  | null : TFBool
  | value : Bool → TFBool
deriving DecidableEq, Repr

/-- `types.Bool.IsNull()`. -/
def TFBool.isNull : TFBool → Bool
  | .null => true
  | .value _ => false

/-- `types.Bool.ValueBoolPointer()`: `nil` (none) when null. -/
def TFBool.valueBoolPointer : TFBool → Option Bool
  | .null => none
  | .value b => some b

/-- The parts of Go's `*http.Response` the resource code reads: the status
line (`resp.Status`, e.g. "500 Internal Server Error"), the numeric code
(`resp.StatusCode`) and the (fully read) body. -/
structure HttpResponse where
  status : String
  statusCode : Nat
  body : String
deriving DecidableEq, Repr

/-- Outcome of a generated-client `Execute` call: on success a value and a
response; on failure a Go error message together with the response, which
is `none` when the call failed at the transport level and no HTTP response
exists. -/
inductive ApiOutcome (α : Type) where
  | success (val : α) (resp : HttpResponse)
  | failure (resp : Option HttpResponse) (errMsg : String)
deriving DecidableEq

/-- What a resource method does to the Terraform response object:
`setState` writes exactly this record to state, `diagnostic` adds one error
diagnostic (summary, detail) and returns without touching state,
`removeResource` calls `State.RemoveResource`, `completed` returns with no
diagnostics and no state write (a successful delete), `validationError`
means the framework rejected the configuration before the method ran, and
`fault` is a nil-pointer dereference (Go panic). -/
inductive OpOutcome (σ : Type) where
  | setState (s : σ)
  | diagnostic (summary detail : String)
  | removeResource
  | completed
  | validationError
  | fault
deriving DecidableEq

/-! ## Application role membership resource -/

/-- `applicationRoleMembershipModelResource`. -/
structure ApplicationRoleMembershipModel where
  id : TFString
  roleId : TFString
  applicationId : TFString
  userName : TFString
  groupName : TFString
deriving DecidableEq, Repr

/-- Member resolution in `Create` and `Delete` (lower-case tokens):
`("group", groupName)` when `group_name` is non-null, else
`("user", userName)`. -/
def resolveMemberLower (data : ApplicationRoleMembershipModel) : String × String :=
  if !data.groupName.isNull then ("group", data.groupName.valueString)
  else ("user", data.userName.valueString)

/-- Member resolution in `Read` (upper-case tokens, compared against the
listed members). -/
def resolveMemberUpper (data : ApplicationRoleMembershipModel) : String × String :=
  if !data.groupName.isNull then ("GROUP", data.groupName.valueString)
  else ("USER", data.userName.valueString)

/-- The argument tuple of `GrantRoleMembershipApplicationOrOrganization`
(and of `RevokeRoleMembershipApplicationOrOrganization`, which is built
identically in `Delete`). -/
structure GrantCall where
  ownerType : String
  ownerId : String
  roleId : String
  memberType : String
  memberName : String
deriving DecidableEq, Repr

/-- The grant/revoke call built by `Create`/`Delete`: owner type is the
literal `"application"`, then application id, role id, and the resolved
member type and name. -/
def grantRoleMembershipCall (data : ApplicationRoleMembershipModel) : GrantCall :=
  { ownerType := "application"
    ownerId := data.applicationId.valueString
    roleId := data.roleId.valueString
    memberType := (resolveMemberLower data).1
    memberName := (resolveMemberLower data).2 }

/-- The synthetic membership id:
`fmt.Sprintf("%s_%s_%s_%s", applicationId, roleId, memberType, memberName)`. -/
def syntheticMembershipId (appId roleId memberType memberName : String) : String :=
  appId ++ "_" ++ roleId ++ "_" ++ memberType ++ "_" ++ memberName

/-- `applicationRoleMembershipResource.Create` after the plan has been read
into `data`: on API error it reads `apiResponse.Body` and
`apiResponse.Status` (a nil dereference when no response exists) and adds
one diagnostic; on success it stores the synthetic id and sets state. -/
def applicationRoleMembershipCreate (data : ApplicationRoleMembershipModel)
    (api : ApiOutcome Unit) : OpOutcome ApplicationRoleMembershipModel :=
  match api with
  | .failure (some r) _ =>
      .diagnostic "Error creating application role membership"
        ("Could not create application role membership, unexpected error: "
          ++ r.status ++ ": " ++ r.body)
  | .failure none _ => .fault
  | .success _ _ =>
      .setState { data with
        id := .value (syntheticMembershipId data.applicationId.valueString
          data.roleId.valueString (resolveMemberLower data).1 (resolveMemberLower data).2) }

/-- `sonatypeiq.ApiMemberDTO`: the fields the read scan compares. -/
structure ApiMemberDTO where
  type : String
  userOrGroupName : String
  ownerType : String
  ownerId : String
deriving DecidableEq, Repr

/-- One entry of `roleMemberships.MemberMappings`. -/
structure ApiRoleMembershipDTO where
  roleId : String
  members : List ApiMemberDTO
deriving DecidableEq, Repr

/-- The member comparison in `Read`: type, user-or-group name, owner type
(the literal `"APPLICATION"`) and owner id must all match. -/
def memberMatches (memberType memberName appId : String) (m : ApiMemberDTO) : Bool :=
  m.type == memberType && m.userOrGroupName == memberName
    && m.ownerType == "APPLICATION" && m.ownerId == appId

/-- The nested loop of `Read`: every mapping whose role id equals the
stored role id is scanned, and every matching member overwrites the
accumulator (the Go loop has no break). -/
def scanRoleMemberships (mappings : List ApiRoleMembershipDTO)
    (roleId memberType memberName appId : String) : Option ApiMemberDTO :=
  mappings.foldl
    (fun acc rm =>
      if rm.roleId == roleId then
        rm.members.foldl
          (fun a m => if memberMatches memberType memberName appId m then some m else a) acc
      else acc)
    none

/-- `applicationRoleMembershipResource.Read` after the prior state has been
read into `data`. -/
def applicationRoleMembershipRead (data : ApplicationRoleMembershipModel)
    (api : ApiOutcome (List ApiRoleMembershipDTO)) :
    OpOutcome ApplicationRoleMembershipModel :=
  match api with
  | .failure (some r) msg =>
      if r.statusCode == 404 then .removeResource
      else
        .diagnostic "Error Reading IQ application role membership"
          ("Could not read applicaton role membership with ID "
            ++ data.id.valueString ++ ": " ++ msg)
  | .failure none _ => .fault
  | .success mappings _ =>
      match scanRoleMemberships mappings data.roleId.valueString
          (resolveMemberUpper data).1 (resolveMemberUpper data).2
          data.applicationId.valueString with
      | none => .removeResource
      | some _ => .setState data

/-- `applicationRoleMembershipResource.Delete` after the state has been
read into `data`. -/
def applicationRoleMembershipDelete (_data : ApplicationRoleMembershipModel)
    (api : ApiOutcome Unit) : OpOutcome ApplicationRoleMembershipModel :=
  match api with
  | .failure (some r) _ =>
      .diagnostic "Error deleting application role membership"
        ("Could not delete application role membership, unexpected error: "
          ++ r.status ++ ": " ++ r.body)
  | .failure none _ => .fault
  | .success _ _ => .completed

/-! ## Source control resource -/

/-- `sourceControlModelResource`. -/
structure SourceControlModel where
  id : TFString
  organizationID : TFString
  applicationID : TFString
  repositoryURL : TFString
  token : TFString
  baseBranch : TFString
  provider : TFString
  remediationPullRequestsEnabled : TFBool
  pullRequestCommentingEnabled : TFBool
  sourceControlEvaluationsEnabled : TFBool
deriving DecidableEq, Repr

/-- Owner resolution shared by `Create`, `Read` and `Delete`:
`("application", applicationID)` when `application_id` is non-null, else
`("organization", organizationID)`. -/
def resolveOwner (data : SourceControlModel) : String × String :=
  if !data.applicationID.isNull then ("application", data.applicationID.valueString)
  else ("organization", data.organizationID.valueString)

/-- `sonatypeiq.ApiSourceControlDTO` (the fields this provider touches);
every field is a nullable pointer in the generated client. -/
structure ApiSourceControlDTO where
  id : Option String
  repositoryUrl : Option String
  token : Option String
  provider : Option String
  baseBranch : Option String
  enablePullRequests : Option Bool
  remediationPullRequestsEnabled : Option Bool
  pullRequestCommentingEnabled : Option Bool
  sourceControlEvaluationsEnabled : Option Bool
deriving DecidableEq, Repr

def ApiSourceControlDTO.getId (d : ApiSourceControlDTO) : String := d.id.getD ""

def ApiSourceControlDTO.getRepositoryUrl (d : ApiSourceControlDTO) : String :=
  d.repositoryUrl.getD ""

def ApiSourceControlDTO.getToken (d : ApiSourceControlDTO) : String := d.token.getD ""

def ApiSourceControlDTO.getProvider (d : ApiSourceControlDTO) : String := d.provider.getD ""

def ApiSourceControlDTO.getBaseBranch (d : ApiSourceControlDTO) : String :=
  d.baseBranch.getD ""

def ApiSourceControlDTO.getRemediationPullRequestsEnabled (d : ApiSourceControlDTO) : Bool :=
  d.remediationPullRequestsEnabled.getD false

def ApiSourceControlDTO.getPullRequestCommentingEnabled (d : ApiSourceControlDTO) : Bool :=
  d.pullRequestCommentingEnabled.getD false

def ApiSourceControlDTO.getSourceControlEvaluationsEnabled (d : ApiSourceControlDTO) : Bool :=
  d.sourceControlEvaluationsEnabled.getD false

/-- The `ApiSourceControlDTO` payload built by `Create`: each field is the
corresponding plan field's value pointer (`nil` when the plan field is
null); the plan's `pull_request_commenting_enabled` is written into the
DTO's `EnablePullRequests` field.  Fields the Go literal omits stay `nil`. -/
def buildSourceControlPayload (data : SourceControlModel) : ApiSourceControlDTO :=
  { id := none
    repositoryUrl := data.repositoryURL.valueStringPointer
    token := data.token.valueStringPointer
    provider := data.provider.valueStringPointer
    baseBranch := data.baseBranch.valueStringPointer
    enablePullRequests := data.pullRequestCommentingEnabled.valueBoolPointer
    remediationPullRequestsEnabled := data.remediationPullRequestsEnabled.valueBoolPointer
    pullRequestCommentingEnabled := none
    sourceControlEvaluationsEnabled := data.sourceControlEvaluationsEnabled.valueBoolPointer }

/-- `sourceControlResource.Create` after the plan has been read into
`data`: the call is scoped by `resolveOwner data` and carries
`buildSourceControlPayload data`; on success the returned DTO's id becomes
the state id and the full record is set. -/
def sourceControlCreate (data : SourceControlModel)
    (api : ApiOutcome ApiSourceControlDTO) : OpOutcome SourceControlModel :=
  match api with
  | .failure (some r) _ =>
      .diagnostic "Error creating source control entry"
        ("Could not create source control entry, unexpected error: "
          ++ r.status ++ ": " ++ r.body)
  | .failure none _ => .fault
  | .success dto _ => .setState { data with id := .value dto.getId }

/-- `sourceControlResource.Read` after the prior state has been read into
`data`. -/
def sourceControlRead (data : SourceControlModel)
    (api : ApiOutcome ApiSourceControlDTO) : OpOutcome SourceControlModel :=
  match api with
  | .failure (some r) msg =>
      if r.statusCode == 404 then .removeResource
      else
        .diagnostic "Error Reading source control entry"
          ("Could not read source control entry with ID "
            ++ data.id.valueString ++ ": " ++ msg)
  | .failure none _ => .fault
  | .success dto _ =>
      .setState { data with
        id := .value dto.getId
        repositoryURL := .value dto.getRepositoryUrl
        token := .value dto.getToken
        baseBranch := .value dto.getBaseBranch
        provider := .value dto.getProvider
        remediationPullRequestsEnabled := .value dto.getRemediationPullRequestsEnabled
        pullRequestCommentingEnabled := .value dto.getPullRequestCommentingEnabled
        sourceControlEvaluationsEnabled := .value dto.getSourceControlEvaluationsEnabled }

/-- `sourceControlResource.Delete` after the state has been read into
`data`. -/
def sourceControlDelete (_data : SourceControlModel)
    (api : ApiOutcome Unit) : OpOutcome SourceControlModel :=
  match api with
  | .failure (some r) _ =>
      .diagnostic "Error deleting source control entry"
        ("Could not delete source control entry, unexpected error: "
          ++ r.status ++ ": " ++ r.body)
  | .failure none _ => .fault
  | .success _ _ => .completed

/-! ## Configuration validation -/

/-- Modelled from the spec: the host framework's
`resourcevalidator.ExactlyOneOf` (not part of this repository) passes
exactly when one of the two attributes is configured and the other is not. -/
def exactlyOneOf (a b : Bool) : Bool := (a && !b) || (!a && b)

/-- The mutual-exclusivity validation `ConfigValidators` declares for the
source-control resource, over `organization_id` and `application_id`. -/
def sourceControlConfigValid (data : SourceControlModel) : Bool :=
  exactlyOneOf (!data.organizationID.isNull) (!data.applicationID.isNull)

/-- The mutual-exclusivity validation `ConfigValidators` declares for the
membership resource, over `user_name` and `group_name`. -/
def membershipConfigValid (data : ApplicationRoleMembershipModel) : Bool :=
  exactlyOneOf (!data.userName.isNull) (!data.groupName.isNull)

/-- Modelled from the spec: the framework runs the declared config
validators before any resource method, so an invalid configuration is
rejected before the create call is issued.  The remote API is a parameter,
so independence from it shows no network call is attempted. -/
def guardedSourceControlCreate (data : SourceControlModel)
    (api : String × String → ApiOutcome ApiSourceControlDTO) : OpOutcome SourceControlModel :=
  if sourceControlConfigValid data then sourceControlCreate data (api (resolveOwner data))
  else .validationError

/-- Modelled from the spec: validator gate for the membership create, as
for `guardedSourceControlCreate`. -/
def guardedMembershipCreate (data : ApplicationRoleMembershipModel)
    (api : GrantCall → ApiOutcome Unit) : OpOutcome ApplicationRoleMembershipModel :=
  if membershipConfigValid data then
    applicationRoleMembershipCreate data (api (grantRoleMembershipCall data))
  else .validationError

/-! ## Spec-side formulation used by the C2 refinement -/

/-- Spec formulation of the read scan: the first member, in list order,
of a role-matching mapping that matches the stored discriminants. -/
def firstMatchingMember (mappings : List ApiRoleMembershipDTO)
    (roleId memberType memberName appId : String) : Option ApiMemberDTO :=
  ((mappings.filter (fun rm => rm.roleId == roleId)).flatMap (fun rm => rm.members)).find?
    (memberMatches memberType memberName appId)

/-! ## Concrete records used in scenarios -/

/-- The membership create scenario input: application "app-1", role
"role-9", user "alice". -/
def membershipExample : ApplicationRoleMembershipModel :=
  { id := .null
    roleId := .value "role-9"
    applicationId := .value "app-1"
    userName := .value "alice"
    groupName := .null }

/-- The source-control create scenario input: organization "org-1",
provider "github", repository url, token "t", base branch "main". -/
def sourceControlExample : SourceControlModel :=
  { id := .null
    organizationID := .value "org-1"
    applicationID := .null
    repositoryURL := .value "https://github.com/x/y"
    token := .value "t"
    baseBranch := .value "main"
    provider := .value "github"
    remediationPullRequestsEnabled := .null
    pullRequestCommentingEnabled := .null
    sourceControlEvaluationsEnabled := .null }

/-- A persisted source-control state record with id "sc-1". -/
def sourceControlState : SourceControlModel :=
  { sourceControlExample with id := .value "sc-1" }

/-- First record of the id-collision pair: application "a_b", role "c",
user "d". -/
def membershipCollide1 : ApplicationRoleMembershipModel :=
  { id := .null
    roleId := .value "c"
    applicationId := .value "a_b"
    userName := .value "d"
    groupName := .null }

/-- Second record of the id-collision pair: application "a", role "b_c",
user "d". -/
def membershipCollide2 : ApplicationRoleMembershipModel :=
  { id := .null
    roleId := .value "b_c"
    applicationId := .value "a"
    userName := .value "d"
    groupName := .null }

/-- A fixed successful HTTP response. -/
def okResponse : HttpResponse := { status := "200 OK", statusCode := 200, body := "" }

/-- A configuration with zero discriminants populated. -/
def sourceControlBothNull : SourceControlModel :=
  { sourceControlExample with organizationID := .null }

/-- A configuration with both discriminants populated. -/
def membershipBothSet : ApplicationRoleMembershipModel :=
  { membershipExample with groupName := .value "devs" }

/-- A remote API stub used only to instantiate validation theorems. -/
def sourceControlApiStub : String × String → ApiOutcome ApiSourceControlDTO :=
  fun _ => .failure none ""

/-- A remote API stub used only to instantiate validation theorems. -/
def membershipApiStub : GrantCall → ApiOutcome Unit :=
  fun _ => .failure none ""

/-! ## Helper lemmas -/

lemma exactlyOneOf_eq_xor (a b : Bool) : exactlyOneOf a b = (a ^^ b) := by
  cases a <;> cases b <;> rfl

lemma memberMatches_eq (mt mn appId : String) (m : ApiMemberDTO)
    (h : memberMatches mt mn appId m = true) :
    m = ⟨mt, mn, "APPLICATION", appId⟩ := by
  cases m with
  | mk t n o i =>
      simp only [memberMatches, Bool.and_eq_true, beq_iff_eq] at h
      obtain ⟨⟨⟨h1, h2⟩, h3⟩, h4⟩ := h
      subst h1; subst h2; subst h3; subst h4; rfl

lemma foldl_overwrite_eq {α : Type} (p : α → Bool) (t : α)
    (hp : ∀ m, p m = true → m = t) :
    ∀ (ms : List α) (acc : Option α),
      ms.foldl (fun a m => if p m then some m else a) acc =
        if ms.any p then some t else acc := by
  intro ms
  induction ms with
  | nil => intro acc; simp
  | cons m ms ih =>
      intro acc
      simp only [List.foldl_cons, List.any_cons]
      rw [ih]
      by_cases hpm : p m = true
      · have hm : m = t := hp m hpm
        subst hm
        by_cases hms : ms.any p = true <;> simp [hpm, hms]
      · by_cases hms : ms.any p = true <;> simp [hpm, hms]

lemma scan_fold_eq (mt mn appId roleId : String) :
    ∀ (mappings : List ApiRoleMembershipDTO) (acc : Option ApiMemberDTO),
      mappings.foldl
          (fun acc rm =>
            if rm.roleId == roleId then
              rm.members.foldl
                (fun a m => if memberMatches mt mn appId m then some m else a) acc
            else acc)
          acc =
        if mappings.any
            (fun rm => rm.roleId == roleId && rm.members.any (memberMatches mt mn appId))
        then some ⟨mt, mn, "APPLICATION", appId⟩ else acc := by
  intro mappings
  induction mappings with
  | nil => intro acc; simp
  | cons rm rms ih =>
      intro acc
      simp only [List.foldl_cons, List.any_cons]
      rw [ih, foldl_overwrite_eq _ _ (memberMatches_eq mt mn appId)]
      by_cases hr : (rm.roleId == roleId) = true <;>
        by_cases hm : rm.members.any (memberMatches mt mn appId) = true <;>
        by_cases hrest : rms.any
          (fun rm => rm.roleId == roleId && rm.members.any (memberMatches mt mn appId)) = true <;>
        simp [hr, hm, hrest]

lemma find?_const_eq {α : Type} (p : α → Bool) (t : α)
    (hp : ∀ m, p m = true → m = t) :
    ∀ (l : List α), l.find? p = if l.any p then some t else none := by
  intro l
  induction l with
  | nil => simp
  | cons m ms ih =>
      by_cases hpm : p m = true
      · rw [List.find?_cons_of_pos _ hpm]
        have hm : m = t := hp m hpm
        subst hm
        simp [List.any_cons, hpm]
      · rw [List.find?_cons_of_neg _ hpm, ih]
        simp [List.any_cons, hpm]

lemma any_flatMap_filter (p : ApiMemberDTO → Bool) (roleId : String)
    (mappings : List ApiRoleMembershipDTO) :
    ((mappings.filter (fun rm => rm.roleId == roleId)).flatMap (fun rm => rm.members)).any p =
      mappings.any (fun rm => rm.roleId == roleId && rm.members.any p) := by
  induction mappings with
  | nil => simp
  | cons rm rms ih =>
      cases hr : (rm.roleId == roleId) <;>
        simp [List.filter_cons, hr, List.any_append, ih, List.any_cons]

lemma scan_eq_firstMatch (roleId mt mn appId : String)
    (mappings : List ApiRoleMembershipDTO) :
    scanRoleMemberships mappings roleId mt mn appId =
      firstMatchingMember mappings roleId mt mn appId := by
  unfold scanRoleMemberships firstMatchingMember
  rw [scan_fold_eq, find?_const_eq _ _ (memberMatches_eq mt mn appId), any_flatMap_filter]

/-! ## Claim theorems -/

/-- C1: On every successful membership create the stored id is the pure,
deterministic concatenation of application id, role id, member-kind token
and member name joined by "_", with the member kind resolved to "group"
when group_name is set and "user" otherwise; the scenario input
(application "app-1", role "role-9", user "alice") yields the grant call
("application","app-1","role-9","user","alice") and the id
"app-1_role-9_user_alice", independently of the HTTP response content. -/
theorem membership_create_synthetic_id (data : ApplicationRoleMembershipModel)
    (resp rp : HttpResponse) :
    resolveMemberLower data =
      (if data.groupName.isNull then ("user", data.userName.valueString)
       else ("group", data.groupName.valueString))
    ∧ applicationRoleMembershipCreate data (.success () resp) =
        .setState { data with
          id := .value (data.applicationId.valueString ++ "_" ++ data.roleId.valueString
            ++ "_" ++ (resolveMemberLower data).1 ++ "_" ++ (resolveMemberLower data).2) }
    ∧ applicationRoleMembershipCreate data (.success () resp) =
        applicationRoleMembershipCreate data (.success () rp)
    ∧ grantRoleMembershipCall membershipExample =
        { ownerType := "application", ownerId := "app-1", roleId := "role-9",
          memberType := "user", memberName := "alice" }
    ∧ applicationRoleMembershipCreate membershipExample (.success () resp) =
        .setState { membershipExample with id := .value "app-1_role-9_user_alice" } := by
  obtain ⟨i, r, a, u, g⟩ := data
  cases g <;> exact ⟨rfl, rfl, rfl, rfl, rfl⟩

/-- C2: The membership read locates the stored record by a linear scan of
the listed memberships, selecting among members of role-matching mappings
the one whose member kind, member name, owner kind "APPLICATION" and owner
id all equal the stored discriminants; the scan's result equals the first
match in list order, and the read removes the resource exactly when no
match exists, otherwise it keeps the stored state. -/
theorem membership_read_linear_scan (data : ApplicationRoleMembershipModel)
    (mappings : List ApiRoleMembershipDTO) (resp : HttpResponse) :
    scanRoleMemberships mappings data.roleId.valueString (resolveMemberUpper data).1
        (resolveMemberUpper data).2 data.applicationId.valueString =
      firstMatchingMember mappings data.roleId.valueString (resolveMemberUpper data).1
        (resolveMemberUpper data).2 data.applicationId.valueString
    ∧ applicationRoleMembershipRead data (.success mappings resp) =
        (match firstMatchingMember mappings data.roleId.valueString
            (resolveMemberUpper data).1 (resolveMemberUpper data).2
            data.applicationId.valueString with
         | none => .removeResource
         | some _ => .setState data) := by
  refine ⟨scan_eq_firstMatch _ _ _ _ _, ?_⟩
  show (match scanRoleMemberships mappings data.roleId.valueString
      (resolveMemberUpper data).1 (resolveMemberUpper data).2
      data.applicationId.valueString with
    | none => OpOutcome.removeResource
    | some _ => OpOutcome.setState data) = _
  rw [scan_eq_firstMatch]

/-- C3 counterexample: a non-404 failing read produces a diagnostic built
from the stored id and the Go error's message; the response body
("RESPONSE-BODY-XYZ") does not occur in it, refuting the claim that every
create/read/delete error diagnostic contains the full response body
concatenated with the HTTP status line. -/
theorem read_error_diagnostic_lacks_body :
    sourceControlRead sourceControlState
        (.failure (some ⟨"500 Internal Server Error", 500, "RESPONSE-BODY-XYZ"⟩) "EOF") =
      .diagnostic "Error Reading source control entry"
        "Could not read source control entry with ID sc-1: EOF"
    ∧ ¬ List.IsInfix "RESPONSE-BODY-XYZ".toList
        "Could not read source control entry with ID sc-1: EOF".toList := by
  exact ⟨by decide, by decide⟩

/-- C3 amended: on create and delete of either entity type, a failure with
an HTTP response yields a single diagnostic whose detail is the response
body concatenated with the HTTP status line; on read, a non-404 failure
yields a single diagnostic built from the stored id and the transport
error's message instead; in every case the operation aborts without a
state write. -/
theorem error_diagnostics (scData : SourceControlModel)
    (mData : ApplicationRoleMembershipModel) (resp : HttpResponse) (msg : String) :
    sourceControlCreate scData (.failure (some resp) msg) =
        .diagnostic "Error creating source control entry"
          ("Could not create source control entry, unexpected error: "
            ++ resp.status ++ ": " ++ resp.body)
    ∧ sourceControlDelete scData (.failure (some resp) msg) =
        .diagnostic "Error deleting source control entry"
          ("Could not delete source control entry, unexpected error: "
            ++ resp.status ++ ": " ++ resp.body)
    ∧ applicationRoleMembershipCreate mData (.failure (some resp) msg) =
        .diagnostic "Error creating application role membership"
          ("Could not create application role membership, unexpected error: "
            ++ resp.status ++ ": " ++ resp.body)
    ∧ applicationRoleMembershipDelete mData (.failure (some resp) msg) =
        .diagnostic "Error deleting application role membership"
          ("Could not delete application role membership, unexpected error: "
            ++ resp.status ++ ": " ++ resp.body)
    ∧ (resp.statusCode ≠ 404 →
        sourceControlRead scData (.failure (some resp) msg) =
          .diagnostic "Error Reading source control entry"
            ("Could not read source control entry with ID "
              ++ scData.id.valueString ++ ": " ++ msg))
    ∧ (resp.statusCode ≠ 404 →
        applicationRoleMembershipRead mData (.failure (some resp) msg) =
          .diagnostic "Error Reading IQ application role membership"
            ("Could not read applicaton role membership with ID "
              ++ mData.id.valueString ++ ": " ++ msg)) := by
  refine ⟨rfl, rfl, rfl, rfl, ?_, ?_⟩ <;> intro h <;>
    have hb : (resp.statusCode == 404) = false := by simpa using h
  · show (if (resp.statusCode == 404) then OpOutcome.removeResource else _) = _
    rw [hb]
    simp
  · show (if (resp.statusCode == 404) then OpOutcome.removeResource else _) = _
    rw [hb]
    simp

/-- Witness for the amended C3 at a concrete non-404 read failure. -/
theorem error_diagnostics_witness :
    sourceControlRead sourceControlState
        (.failure (some ⟨"500 Internal Server Error", 500, "B"⟩) "EOF") =
      .diagnostic "Error Reading source control entry"
        ("Could not read source control entry with ID "
          ++ sourceControlState.id.valueString ++ ": " ++ "EOF") :=
  (error_diagnostics sourceControlState membershipExample
    ⟨"500 Internal Server Error", 500, "B"⟩ "EOF").2.2.2.2.1 (by decide)

/-- C4: Each resource declares an exactly-one-of constraint over its two
discriminant fields (organization_id/application_id, user_name/group_name);
the validation passes exactly when one of the two is populated, and a
configuration with zero or both populated is rejected before the create's
remote call is issued (the guarded create's outcome is the validation error
and does not depend on the remote API at all). -/
theorem config_exactly_one_of (scData : SourceControlModel)
    (mData : ApplicationRoleMembershipModel)
    (scApi scApi2 : String × String → ApiOutcome ApiSourceControlDTO)
    (mApi mApi2 : GrantCall → ApiOutcome Unit) :
    sourceControlConfigValid scData =
        ((!scData.organizationID.isNull) ^^ (!scData.applicationID.isNull))
    ∧ (sourceControlConfigValid scData = false →
        guardedSourceControlCreate scData scApi = .validationError
        ∧ guardedSourceControlCreate scData scApi =
            guardedSourceControlCreate scData scApi2)
    ∧ membershipConfigValid mData =
        ((!mData.userName.isNull) ^^ (!mData.groupName.isNull))
    ∧ (membershipConfigValid mData = false →
        guardedMembershipCreate mData mApi = .validationError
        ∧ guardedMembershipCreate mData mApi = guardedMembershipCreate mData mApi2) := by
  refine ⟨exactlyOneOf_eq_xor _ _, ?_, exactlyOneOf_eq_xor _ _, ?_⟩ <;> intro h
  · constructor
    · show (if sourceControlConfigValid scData then _ else OpOutcome.validationError) = _
      rw [h]
      simp
    · show (if sourceControlConfigValid scData then _ else OpOutcome.validationError) =
        (if sourceControlConfigValid scData then _ else OpOutcome.validationError)
      rw [h]
      simp
  · constructor
    · show (if membershipConfigValid mData then _ else OpOutcome.validationError) = _
      rw [h]
      simp
    · show (if membershipConfigValid mData then _ else OpOutcome.validationError) =
        (if membershipConfigValid mData then _ else OpOutcome.validationError)
      rw [h]
      simp

/-- Witness for C4: zero discriminants populated for the source-control
record and both populated for the membership record are rejected with a
validation error before any call. -/
theorem config_exactly_one_of_witness :
    guardedSourceControlCreate sourceControlBothNull sourceControlApiStub =
        .validationError
    ∧ guardedMembershipCreate membershipBothSet membershipApiStub = .validationError :=
  ⟨((config_exactly_one_of sourceControlBothNull membershipBothSet
      sourceControlApiStub sourceControlApiStub membershipApiStub membershipApiStub).2.1
      (by decide)).1,
   ((config_exactly_one_of sourceControlBothNull membershipBothSet
      sourceControlApiStub sourceControlApiStub membershipApiStub membershipApiStub).2.2.2
      (by decide)).1⟩

/-- C5: A read the remote service answers with 404 (source control), or
whose membership list contains no matching entry, removes the record from
state and raises no error diagnostic. -/
theorem read_absent_signals_removal (scData : SourceControlModel)
    (mData : ApplicationRoleMembershipModel) (resp resp2 : HttpResponse)
    (msg : String) (mappings : List ApiRoleMembershipDTO)
    (h404 : resp.statusCode = 404)
    (hmiss : scanRoleMemberships mappings mData.roleId.valueString
      (resolveMemberUpper mData).1 (resolveMemberUpper mData).2
      mData.applicationId.valueString = none) :
    sourceControlRead scData (.failure (some resp) msg) = .removeResource
    ∧ applicationRoleMembershipRead mData (.success mappings resp2) = .removeResource := by
  constructor
  · show (if (resp.statusCode == 404) then OpOutcome.removeResource else _) = _
    rw [h404]
    simp
  · show (match scanRoleMemberships mappings mData.roleId.valueString
        (resolveMemberUpper mData).1 (resolveMemberUpper mData).2
        mData.applicationId.valueString with
      | none => OpOutcome.removeResource
      | some _ => OpOutcome.setState mData) = _
    rw [hmiss]

/-- Witness for C5 at a concrete 404 response and an empty membership
list. -/
theorem read_absent_signals_removal_witness :
    sourceControlRead sourceControlState
        (.failure (some ⟨"404 Not Found", 404, ""⟩) "404 Not Found") = .removeResource
    ∧ applicationRoleMembershipRead membershipExample (.success [] okResponse) =
        .removeResource :=
  read_absent_signals_removal sourceControlState membershipExample
    ⟨"404 Not Found", 404, ""⟩ okResponse "404 Not Found" [] rfl rfl

/-- C6: The source-control create is atomic with respect to state — on
success the full record is set with the id taken from the service's
returned DTO (the scenario input with organization_id "org-1" scopes the
one create call as ("organization","org-1")), and a failure that carries an
HTTP response raises a diagnostic with no state write; however, a transport
failure carrying no HTTP response faults (nil dereference) instead of
raising the claimed error — in that case too no record is written. -/
theorem source_control_create_atomicity (data : SourceControlModel)
    (dto : ApiSourceControlDTO) (resp : HttpResponse) (msg : String) :
    sourceControlCreate data (.success dto resp) =
        .setState { data with id := .value dto.getId }
    ∧ sourceControlCreate data (.failure (some resp) msg) =
        .diagnostic "Error creating source control entry"
          ("Could not create source control entry, unexpected error: "
            ++ resp.status ++ ": " ++ resp.body)
    ∧ resolveOwner sourceControlExample = ("organization", "org-1")
    ∧ sourceControlCreate sourceControlExample
        (.success { buildSourceControlPayload sourceControlExample with
          id := some "sc-returned-42" } okResponse) =
        .setState { sourceControlExample with id := .value "sc-returned-42" }
    ∧ sourceControlCreate data (.failure none msg) = .fault :=
  ⟨rfl, rfl, rfl, rfl, rfl⟩

/-- C7: A successful source-control read overwrites every field of the
state record from the response DTO — identifier, repository URL, token,
provider, base branch and the three feature flags — while organization_id
and application_id are kept exactly as in the prior state. -/
theorem source_control_read_frame (data : SourceControlModel)
    (dto : ApiSourceControlDTO) (resp : HttpResponse) :
    sourceControlRead data (.success dto resp) =
      .setState
        { id := .value dto.getId
          organizationID := data.organizationID
          applicationID := data.applicationID
          repositoryURL := .value dto.getRepositoryUrl
          token := .value dto.getToken
          baseBranch := .value dto.getBaseBranch
          provider := .value dto.getProvider
          remediationPullRequestsEnabled := .value dto.getRemediationPullRequestsEnabled
          pullRequestCommentingEnabled := .value dto.getPullRequestCommentingEnabled
          sourceControlEvaluationsEnabled :=
            .value dto.getSourceControlEvaluationsEnabled } :=
  rfl

/-- C8 (code evaluated at the failing input): when the call itself fails
and no HTTP response exists, the error branches of create and delete for
both entity types dereference the nil response (its Status and Body) and
fault instead of producing the transport's message as a diagnostic. -/
theorem transport_failure_faults :
    sourceControlCreate sourceControlExample
        (.failure none "dial tcp: connection refused") = .fault
    ∧ sourceControlDelete sourceControlState
        (.failure none "dial tcp: connection refused") = .fault
    ∧ applicationRoleMembershipCreate membershipExample
        (.failure none "dial tcp: connection refused") = .fault
    ∧ applicationRoleMembershipDelete membershipExample
        (.failure none "dial tcp: connection refused") = .fault :=
  ⟨rfl, rfl, rfl, rfl⟩

/-- C9: The source-control creation payload copies each configurable plan
field into its request field through the value pointer (the PR-commenting
flag lands in the DTO's EnablePullRequests field), and each nullable field
passes through as absent exactly when unset and as its declared value when
set — nothing is defaulted. -/
theorem source_control_payload_verbatim (data : SourceControlModel) :
    (buildSourceControlPayload data).repositoryUrl = data.repositoryURL.valueStringPointer
    ∧ (buildSourceControlPayload data).token = data.token.valueStringPointer
    ∧ (buildSourceControlPayload data).provider = data.provider.valueStringPointer
    ∧ (buildSourceControlPayload data).baseBranch = data.baseBranch.valueStringPointer
    ∧ (buildSourceControlPayload data).enablePullRequests =
        data.pullRequestCommentingEnabled.valueBoolPointer
    ∧ (buildSourceControlPayload data).remediationPullRequestsEnabled =
        data.remediationPullRequestsEnabled.valueBoolPointer
    ∧ (buildSourceControlPayload data).sourceControlEvaluationsEnabled =
        data.sourceControlEvaluationsEnabled.valueBoolPointer
    ∧ (buildSourceControlPayload data).id = none
    ∧ TFString.null.valueStringPointer = none
    ∧ (∀ s, (TFString.value s).valueStringPointer = some s)
    ∧ TFBool.null.valueBoolPointer = none
    ∧ (∀ b, (TFBool.value b).valueBoolPointer = some b) :=
  ⟨rfl, rfl, rfl, rfl, rfl, rfl, rfl, rfl, rfl, fun _ => rfl, rfl, fun _ => rfl⟩

/-- C10: The synthetic id derivation is not injective — the two distinct
records (application "a_b", role "c", user "d") and (application "a", role
"b_c", user "d") issue different grant calls yet their creates store the
identical id "a_b_c_user_d". -/
theorem membership_id_collision :
    membershipCollide1 ≠ membershipCollide2
    ∧ grantRoleMembershipCall membershipCollide1 ≠ grantRoleMembershipCall membershipCollide2
    ∧ applicationRoleMembershipCreate membershipCollide1 (.success () okResponse) =
        .setState { membershipCollide1 with id := .value "a_b_c_user_d" }
    ∧ applicationRoleMembershipCreate membershipCollide2 (.success () okResponse) =
        .setState { membershipCollide2 with id := .value "a_b_c_user_d" } :=
  ⟨by decide, by decide, rfl, rfl⟩
